import Mathlib

/-!
Shallow embedding of the Meta Embedded-Signup prototype:

* `src/src/composable/use-facebook-sdk-v2.ts` — the singleton SDK loader
  (`loadSDK`, `_injectScript`, `_initSDK`, `_finalise`, `resetSDK`);
* `src/src/components/FacebookSignUp.vue` — the popup-flow launcher
  (`launchSignup`, `_onMessage`, and the `FB.login` callback).

The browser's single-threaded, cooperative scheduling lets us model each
asynchronous load attempt as a deterministic fold over an explicit list of
environment events (script `onload`/`onerror`, the init timeout firing, the
`fbAsyncInit` hook firing).  JavaScript promises are represented by a numeric
identity plus an `Option (Except LoadErr Unit)` settlement; JS string
falsiness (`!s` true for `undefined`/`null`/`""`) and nullish coalescing
(`??`) are modelled explicitly.
-/

deriving instance DecidableEq for Except

/-- Loader failure taxonomy, from the four `reject`/`throw` sites in
`use-facebook-sdk-v2.ts`: script `onerror`, the missing-App-ID guard, the
10-second `fbAsyncInit` timeout, and `FB.init()` throwing. -/
inductive LoadErr
  | scriptLoadError
  | missingAppId
  | initTimeout
  | initException
deriving DecidableEq, Repr

/-- The module-level singleton state of `use-facebook-sdk-v2.ts`
(`_FB`, `_isReady`, `_isLoading`, `_error`, `_loadPromise`), together with
the DOM/window facts it interacts with (`scriptTag`: an element with id
`facebook-jssdk` exists; `windowFB`: the `window.FB` global, a handle
modelled as a `Nat` identity).  `nextPromiseId` generates fresh promise
identities; `injectCalls`/`initCalls` are instrumentation counters recording
how many times `_injectScript` resp. `_initSDK` have been invoked — they
influence nothing. -/
structure SDKState where
  fb : Option Nat
  isReady : Bool
  isLoading : Bool
  error : Option LoadErr
  loadPromise : Option Nat
  scriptTag : Bool
  windowFB : Option Nat
  nextPromiseId : Nat
  injectCalls : Nat
  initCalls : Nat
deriving DecidableEq, Repr

/-- The options resolved at the top of `useFacebookSDK` (`appId` defaults to
`''`; the `if (!appId)` guard treats the empty string as missing). -/
structure FBConfig where
  appId : String
  version : String
  xfbml : Bool
  cookie : Bool
  debug : Bool
deriving DecidableEq, Repr

/-- What a single `loadSDK()` call returns, synchronously: an immediately
resolved promise (already ready), the cached in-flight promise
(`_loadPromise`), or a freshly started one. -/
inductive LoadCallOutcome
  | immediate
  | joined (p : Nat)
  | started (p : Nat)
deriving DecidableEq, Repr

/-- `_finalise`: syncs `window.FB` into `_FB` and flips the flags
(`_isReady := true`, `_isLoading := false`, `_error := null`). -/
def _finalise (s : SDKState) : SDKState :=
  { s with fb := s.windowFB, isReady := true, isLoading := false, error := none }

/-- The `catch` block of `loadSDK`'s async body: on a rejected attempt,
`_isLoading := false`, `_isReady := false`, `_error := err`,
`_loadPromise := null` (allowing a retry on the next call). -/
def failApply (s : SDKState) (e : LoadErr) : SDKState :=
  { s with isLoading := false, isReady := false, error := some e,
           loadPromise := none }

/-- The synchronous prefix of `loadSDK()`: return at once if `_isReady`;
return the cached `_loadPromise` if one is in flight; otherwise set
`_isLoading := true`, `_error := null`, and cache a fresh promise whose async
body will run the attempt (`runAttempt` below). -/
def loadSDK (s : SDKState) : SDKState × LoadCallOutcome :=
  if s.isReady then (s, .immediate)
  else
    match s.loadPromise with
    | some p => (s, .joined p)
    | none =>
        let p := s.nextPromiseId
        ({ s with isLoading := true, error := none, loadPromise := some p,
                  nextPromiseId := p + 1 }, .started p)

/-- `resetSDK()`: removes the injected script tag if present and clears all
singleton state and the `window.FB` / `fbAsyncInit` globals. -/
def resetSDK (s : SDKState) : SDKState :=
  { s with scriptTag := false, fb := none, isReady := false, isLoading := false,
           error := none, loadPromise := none, windowFB := none }

/-- `_injectScript`: bump the invocation counter; if the tag with id
`facebook-jssdk` already exists, resolve immediately (second component
`false`: no load event is awaited); otherwise insert the tag and await its
`onload`/`onerror` (second component `true`). -/
def _injectScript (s : SDKState) : SDKState × Bool :=
  let s1 := { s with injectCalls := s.injectCalls + 1 }
  if s1.scriptTag then (s1, false)
  else ({ s1 with scriptTag := true }, true)

/-- Outcome of awaiting the script element's load. -/
inductive ScriptEv
  | onload
  | onerror
deriving DecidableEq, Repr

/-- Environment events that can reach an `_initSDK` promise that installed
the `fbAsyncInit` hook and the 10-second timeout: the timeout firing, or the
remote script invoking `fbAsyncInit` (having first set `window.FB` to
`fbSet`; `initThrows` says whether `FB.init()` itself throws). -/
inductive InitEv
  | timeoutFires
  | asyncInitFires (fbSet : Option Nat) (initThrows : Bool)
deriving DecidableEq, Repr

/-- One in-flight `_initSDK` promise: the shared singleton state, the
`settled` flag from the source, and the settlement of the promise
(`none` while pending; first settlement wins). -/
structure AttemptSt where
  sdk : SDKState
  settled : Bool
  result : Option (Except LoadErr Unit)
deriving DecidableEq, Repr

/-- A rejection site guarded by `if (!settled)`.  When the rejection really
settles the promise, the `catch` block of `loadSDK`'s body runs as the very
next microtask — before any further environment event — so its state update
(`failApply`) is applied here. -/
def settleReject (a : AttemptSt) (e : LoadErr) : AttemptSt :=
  if a.settled then a
  else { sdk := failApply a.sdk e, settled := true, result := some (.error e) }

/-- Deliver one environment event to an `_initSDK` promise that is awaiting
the hook.  `timeoutFires` rejects with the timeout error unless already
settled.  `asyncInitFires` runs the installed `window.fbAsyncInit` handler:
the remote script has set `window.FB := fbSet`; the handler calls
`window.FB.init(...)` — which throws if `window.FB` is absent or if
`FB.init` itself throws, rejecting with `initException` — and otherwise runs
`_finalise()` and resolves if not yet settled.  Note that `_finalise()` runs
regardless of `settled`. -/
def stepInit (a : AttemptSt) (ev : InitEv) : AttemptSt :=
  match ev with
  | .timeoutFires => settleReject a .initTimeout
  | .asyncInitFires fbSet initThrows =>
      let a1 := { a with sdk := { a.sdk with windowFB := fbSet } }
      if fbSet = none ∨ initThrows = true then
        settleReject a1 .initException
      else
        let a2 := { a1 with sdk := _finalise a1.sdk }
        if a2.settled then a2
        else { a2 with settled := true, result := some (.ok ()) }

/-- `_initSDK()` followed by `loadSDK`'s body reacting to its settlement:
bump the invocation counter, then in source order — resolve if `_isReady`;
reject `missingAppId` if the `appId` option is empty (the rejection
propagates to the body's `catch`, hence `failApply`); short-circuit via
`_finalise` if `window.FB` is already set (hot reload); otherwise install
the timeout and the `fbAsyncInit` hook and process the environment events in
order.  The returned settlement is `none` when no event ever settles the
promise. -/
def _initSDK (cfg : FBConfig) (s : SDKState) (evs : List InitEv) :
    SDKState × Option (Except LoadErr Unit) :=
  let s1 := { s with initCalls := s.initCalls + 1 }
  if s1.isReady then (s1, some (.ok ()))
  else if cfg.appId = "" then (failApply s1 .missingAppId, some (.error .missingAppId))
  else
    match s1.windowFB with
    | some _ => (_finalise s1, some (.ok ()))
    | none =>
        let a := evs.foldl stepInit { sdk := s1, settled := false, result := none }
        (a.sdk, a.result)

/-- The async body started by `loadSDK` when no load was in flight:
`await _injectScript()` — if a fresh tag was inserted and its load event is
`onerror`, the body's `catch` runs with `scriptLoadError` — then
`await _initSDK()`.  On success the body ends without further state change
(in particular `_loadPromise` is never cleared on success). -/
def runAttempt (cfg : FBConfig) (s : SDKState) (sev : ScriptEv)
    (evs : List InitEv) : SDKState × Option (Except LoadErr Unit) :=
  let r := _injectScript s
  match r.2, sev with
  | true, .onerror => (failApply r.1 .scriptLoadError, some (.error .scriptLoadError))
  | true, .onload => _initSDK cfg r.1 evs
  | false, _ => _initSDK cfg r.1 evs

/-- Iterate the synchronous prefix of `loadSDK()` `n` times, collecting each
call's outcome — the shape of a burst of concurrent callers, since the
prefix contains no suspension point. -/
def iterateCalls : SDKState → Nat → SDKState × List LoadCallOutcome
  | s, 0 => (s, [])
  | s, n + 1 =>
      let r := loadSDK s
      let rest := iterateCalls r.1 n
      (rest.1, r.2 :: rest.2)

/-- The loader-state invariant of the specification:
`isReady ⇒ handle present ∧ error = absent`, `isLoading ⇒ ¬isReady`, and
exactly one of Loading / Ready / idle holds. -/
def SDKInv (s : SDKState) : Prop :=
  (s.isReady = true → s.fb.isSome = true ∧ s.error = none) ∧
  (s.isLoading = true → s.isReady = false) ∧
  ((s.isLoading = true ∧ s.isReady = false) ∨
   (s.isReady = true ∧ s.isLoading = false) ∨
   (s.isLoading = false ∧ s.isReady = false))

instance (s : SDKState) : Decidable (SDKInv s) := by
  unfold SDKInv; infer_instance

/-!  The popup-flow launcher of `FacebookSignUp.vue`. -/

/-- The component-level `_sessionData` buffer
(`Pick<EmbeddedSignupMessageData, phone_number_id | waba_id>`); the reset
`_sessionData = {}` leaves both fields undefined, i.e. `none`. -/
structure SessionData where
  phone_number_id : Option String
  waba_id : Option String
deriving DecidableEq, Repr

def emptySession : SessionData := { phone_number_id := none, waba_id := none }

/-- A structured (or successfully JSON-parsed) message payload.  `type` and
`event` are arbitrary strings, as parsed JSON can carry anything; the three
`data` sub-fields are each optionally present. -/
structure MsgPayload where
  type : String
  event : String
  data_phone_number_id : Option String
  data_waba_id : Option String
  data_current_step : Option String
deriving DecidableEq, Repr

/-- `event.data` of an inbound browser message: either a string that fails
`JSON.parse` (the `catch` swallows it) or a usable payload. -/
inductive MessageData
  | unparseable
  | parsed (p : MsgPayload)
deriving DecidableEq, Repr

/-- The component's emitted events (`success` / `cancel` / `error`), with the
payload shapes of `defineEmits` in `FacebookSignUp.vue`. -/
inductive SignupEvent
  | success (code : String) (wabaId : Option String) (phoneNumberId : Option String)
  | cancel (currentStep : Option String)
  | error (msg : String)
deriving DecidableEq, Repr

/-- `_onMessage`: ignore unparseable payloads and payloads whose `type` is
not the `WA_EMBEDDED_SIGNUP` sentinel; on `FINISH`, overwrite the session
buffer's two fields from the payload's data; on `CANCEL` or `ERROR`, emit
`cancel` with the payload's `current_step`.  Returns the updated buffer and
the events emitted. -/
def _onMessage (sd : SessionData) (m : MessageData) :
    SessionData × List SignupEvent :=
  match m with
  | .unparseable => (sd, [])
  | .parsed p =>
      if p.type ≠ "WA_EMBEDDED_SIGNUP" then (sd, [])
      else
        let sd1 := if p.event = "FINISH" then
            { phone_number_id := p.data_phone_number_id,
              waba_id := p.data_waba_id }
          else sd
        if p.event = "CANCEL" ∨ p.event = "ERROR" then
          (sd1, [.cancel p.data_current_step])
        else (sd1, [])

/-- `response.authResponse` as the login callback sees it: the `code` and
`accessToken` fields, each possibly absent. -/
structure AuthResponse where
  code : Option String
  accessToken : Option String
deriving DecidableEq, Repr

/-- The SDK's login response; `status` plays no role in the component. -/
structure LoginResponse where
  authResponse : Option AuthResponse
deriving DecidableEq, Repr

/-- JavaScript falsiness of an optional string: `!s` is true for
`undefined`/`null` and for the empty string. -/
def strFalsy : Option String → Bool
  | none => true
  | some s => s == ""

/-- JavaScript nullish coalescing `code ?? accessToken`: the code whenever
the field is present (even `""`), the token otherwise. -/
def nullishCode (a : AuthResponse) : Option String :=
  match a.code with
  | some s => some s
  | none => a.accessToken

/-- The branch logic of the `FB.login` callback (after the listener removal,
which `stepLaunch` below performs first): no `authResponse` → `cancel` with
no step; neither code nor token (JS-falsy both) → `error`; otherwise
`success` with `code ?? accessToken` (the source's non-null assertion `!` is
rendered by `getD ""`, unreachable in this branch) and the buffered
`waba_id` / `phone_number_id`. -/
def loginCallback (sd : SessionData) (r : LoginResponse) : List SignupEvent :=
  match r.authResponse with
  | none => [.cancel none]
  | some a =>
      if strFalsy a.code && strFalsy a.accessToken then
        [.error "[SignupLauncher] No auth code or token in FB.login() response."]
      else
        [.success ((nullishCode a).getD "") sd.waba_id sd.phone_number_id]

/-- One occurrence during a launch: an inbound message event, or the SDK
firing the login callback with a response. -/
inductive LaunchStep
  | msg (m : MessageData)
  | callback (r : LoginResponse)
deriving DecidableEq, Repr

/-- Observable state of one launch: the session buffer, whether `_onMessage`
is currently registered on `window`, whether `FB.value.login` was invoked,
and the events emitted so far, in order. -/
structure LaunchState where
  sd : SessionData
  listenerOn : Bool
  loginCalled : Bool
  events : List SignupEvent
deriving DecidableEq, Repr

/-- Deliver one occurrence: a message event reaches `_onMessage` only while
the listener is registered (otherwise it is dropped by the browser); the
login callback removes the listener first — before any branching — and then
emits per `loginCallback`. -/
def stepLaunch (st : LaunchState) (step : LaunchStep) : LaunchState :=
  match step with
  | .msg m =>
      if st.listenerOn then
        let r := _onMessage st.sd m
        { st with sd := r.1, events := st.events ++ r.2 }
      else st
  | .callback r =>
      let st1 := { st with listenerOn := false }
      { st1 with events := st1.events ++ loginCallback st1.sd r }

/-- `launchSignup()`: if `FB.value` is null or the loader is not ready,
return immediately — no buffer reset, no listener, no login call, no event.
Otherwise reset `_sessionData`, register `_onMessage`, call `FB.value.login`,
and let the environment occurrences of this launch play out in order. -/
def launchSignup (fb : Option Nat) (isReady : Bool) (sd0 : SessionData)
    (steps : List LaunchStep) : LaunchState :=
  if fb = none ∨ isReady = false then
    { sd := sd0, listenerOn := false, loginCalled := false, events := [] }
  else
    steps.foldl stepLaunch
      { sd := emptySession, listenerOn := true, loginCalled := true, events := [] }

/-!  Helper lemmas. -/

/-- Delivering an `_initSDK` environment event never touches the
instrumentation counters. -/
theorem stepInit_counters (a : AttemptSt) (ev : InitEv) :
    (stepInit a ev).sdk.injectCalls = a.sdk.injectCalls ∧
    (stepInit a ev).sdk.initCalls = a.sdk.initCalls := by
  cases ev <;>
    simp only [stepInit, settleReject, failApply, _finalise] <;>
    split_ifs <;> simp

/-- Folding any event list over `stepInit` leaves the counters unchanged. -/
theorem foldl_stepInit_counters (evs : List InitEv) (a : AttemptSt) :
    (evs.foldl stepInit a).sdk.injectCalls = a.sdk.injectCalls ∧
    (evs.foldl stepInit a).sdk.initCalls = a.sdk.initCalls := by
  induction evs generalizing a with
  | nil => simp
  | cons e t ih =>
      refine ⟨?_, ?_⟩
      · exact ((ih (stepInit a e)).1).trans (stepInit_counters a e).1
      · exact ((ih (stepInit a e)).2).trans (stepInit_counters a e).2

/-- `_initSDK` bumps `initCalls` exactly once and never calls
`_injectScript`. -/
theorem _initSDK_counters (cfg : FBConfig) (s : SDKState) (evs : List InitEv) :
    (_initSDK cfg s evs).1.injectCalls = s.injectCalls ∧
    (_initSDK cfg s evs).1.initCalls = s.initCalls + 1 := by
  simp only [_initSDK]
  split_ifs with h1 h2
  · exact ⟨rfl, rfl⟩
  · exact ⟨rfl, rfl⟩
  · cases hw : s.windowFB with
    | some v => simp [hw, _finalise]
    | none =>
        simp only [hw]
        constructor
        · exact (foldl_stepInit_counters evs _).1
        · exact (foldl_stepInit_counters evs _).2

/-- A single async load attempt invokes `_injectScript` exactly once. -/
theorem runAttempt_injectCalls (cfg : FBConfig) (s : SDKState) (sev : ScriptEv)
    (evs : List InitEv) :
    (runAttempt cfg s sev evs).1.injectCalls = s.injectCalls + 1 := by
  simp only [runAttempt, _injectScript]
  split_ifs with h <;> cases sev <;>
    simp [failApply, (_initSDK_counters cfg _ evs).1]

/-- A single async load attempt invokes `_initSDK` at most once. -/
theorem runAttempt_initCalls (cfg : FBConfig) (s : SDKState) (sev : ScriptEv)
    (evs : List InitEv) :
    (runAttempt cfg s sev evs).1.initCalls = s.initCalls ∨
    (runAttempt cfg s sev evs).1.initCalls = s.initCalls + 1 := by
  simp only [runAttempt, _injectScript]
  split_ifs with h <;> cases sev <;>
    simp [failApply, (_initSDK_counters cfg _ evs).2]

/-- While a load is in flight and the loader is not ready, every `loadSDK()`
call returns the cached promise and changes nothing. -/
theorem iterateCalls_joined (n : Nat) (s : SDKState) (p : Nat)
    (hr : s.isReady = false) (hp : s.loadPromise = some p) :
    iterateCalls s n = (s, List.replicate n (.joined p)) := by
  induction n with
  | zero => simp [iterateCalls]
  | succ k ih =>
      simp [iterateCalls, loadSDK, hr, hp, ih, List.replicate_succ]

/-!  Concrete fixtures used by the witnesses. -/

/-- An idle loader state: nothing loaded, no script tag, no `window.FB`. -/
def sIdle : SDKState :=
  { fb := none, isReady := false, isLoading := false, error := none,
    loadPromise := none, scriptTag := false, windowFB := none,
    nextPromiseId := 0, injectCalls := 0, initCalls := 0 }

/-- The idle state with `window.FB` already set (hot-reload situation). -/
def sIdleFB : SDKState := { sIdle with windowFB := some 1 }

/-- An in-flight loader state: promise `0` cached, loading. -/
def sInFlight : SDKState :=
  { sIdle with isLoading := true, loadPromise := some 0, nextPromiseId := 1 }

/-- A configuration with an App ID present. -/
def cfgA : FBConfig :=
  { appId := "123", version := "v25.0", xfbml := false, cookie := false,
    debug := false }

/-- A `FINISH` message payload carrying the two identifiers. -/
def finishPayload : MsgPayload :=
  { type := "WA_EMBEDDED_SIGNUP", event := "FINISH",
    data_phone_number_id := some "P1", data_waba_id := some "W1",
    data_current_step := none }

/-- A `CANCEL` message payload carrying a current step. -/
def cancelPayload : MsgPayload :=
  { finishPayload with event := "CANCEL", data_current_step := some "STEP2" }

/-- A payload whose `type` is not the sentinel. -/
def mistypedPayload : MsgPayload := { finishPayload with type := "other" }

/-- An auth response carrying the code `"abc"`. -/
def authAbc : AuthResponse := { code := some "abc", accessToken := none }

/-- An auth response with neither code nor token. -/
def authEmpty : AuthResponse := { code := none, accessToken := none }

/-- A fresh launch state: empty buffer, listener registered, login called. -/
def launch0 : LaunchState :=
  { sd := emptySession, listenerOn := true, loginCalled := true, events := [] }

/-!  Claim theorems. -/

/-- Claim C1: when a `FINISH` message event carrying `waba_id = "W1"` and
`phone_number_id = "P1"` is delivered to the registered listener before the
login callback fires with `authResponse = {code: "abc"}`, the launcher emits
exactly one `success` event with code `"abc"`, the buffered business-account
id `"W1"` (the source's `wabaId` field) and phone-number id `"P1"`. -/
theorem c1_finish_then_code_gives_success (fbh : Nat) (sd0 : SessionData)
    (p : MsgPayload) (a : AuthResponse)
    (hty : p.type = "WA_EMBEDDED_SIGNUP") (hev : p.event = "FINISH")
    (hw : p.data_waba_id = some "W1") (hph : p.data_phone_number_id = some "P1")
    (hc : a.code = some "abc") :
    (launchSignup (some fbh) true sd0
        [.msg (.parsed p), .callback { authResponse := some a }]).events
      = [.success "abc" (some "W1") (some "P1")] := by
  simp [launchSignup, stepLaunch, _onMessage, loginCallback, nullishCode,
        strFalsy, hty, hev, hw, hph, hc]

/-- Witness for C1 at a concrete payload and auth response. -/
theorem c1_witness :
    (launchSignup (some 1) true emptySession
        [.msg (.parsed finishPayload),
         .callback { authResponse := some authAbc }]).events
      = [.success "abc" (some "W1") (some "P1")] :=
  c1_finish_then_code_gives_success 1 emptySession finishPayload authAbc
    rfl rfl rfl rfl rfl

/-- Claim C2: the loader-state invariant (`isReady ⇒ handle present ∧ no
error`, `isLoading ⇒ ¬isReady`, exactly one of Loading / Ready / idle) holds
after every operation, from any invariant-satisfying state: the synchronous
`loadSDK()` step, the failure settlement and `resetSDK` unconditionally, and
`_finalise` whenever `window.FB` is present — which both of its call sites
in `_initSDK` guarantee. -/
theorem c2_loader_invariant (s : SDKState) (e : LoadErr) (hs : SDKInv s) :
    SDKInv (loadSDK s).1 ∧
    (s.windowFB.isSome = true → SDKInv (_finalise s)) ∧
    SDKInv (failApply s e) ∧ SDKInv (resetSDK s) := by
  obtain ⟨h1, h2, h3⟩ := hs
  refine ⟨?_, ?_, ?_, ?_⟩
  · by_cases hr : s.isReady = true
    · simpa [loadSDK, hr] using ⟨h1, h2, h3⟩
    · cases hp : s.loadPromise with
      | some p => simpa [loadSDK, hr, hp] using ⟨h1, h2, h3⟩
      | none =>
          simp only [Bool.not_eq_true] at hr
          simp [loadSDK, hr, hp, SDKInv]
  · intro hwfb
    simp [SDKInv, _finalise, hwfb]
  · simp [SDKInv, failApply]
  · simp [SDKInv, resetSDK]

/-- Witness for C2 at the plain idle state (no `window.FB`). -/
theorem c2_witness :
    SDKInv (loadSDK sIdle).1 ∧
    (sIdle.windowFB.isSome = true → SDKInv (_finalise sIdle)) ∧
    SDKInv (failApply sIdle .initTimeout) ∧ SDKInv (resetSDK sIdle) :=
  c2_loader_invariant sIdle .initTimeout (by unfold SDKInv sIdle; decide)

/-- Claim C3: while a load is in flight (a cached promise exists and the
loader is not ready), every further `loadSDK()` call returns that same
pending promise and leaves the state untouched — so, starting a load from an
idle state, the burst of concurrent callers causes exactly one
`_injectScript` invocation and at most one `_initSDK` invocation, and every
caller awaits the one promise identity `s0.nextPromiseId`, settling with its
single outcome. -/
theorem c3_concurrent_loads_coalesce (s0 : SDKState) (n : Nat)
    (cfg : FBConfig) (sev : ScriptEv) (evs : List InitEv)
    (hr : s0.isReady = false) (hp : s0.loadPromise = none) :
    (loadSDK s0).2 = .started s0.nextPromiseId ∧
    iterateCalls (loadSDK s0).1 n
      = ((loadSDK s0).1, List.replicate n (.joined s0.nextPromiseId)) ∧
    (runAttempt cfg (loadSDK s0).1 sev evs).1.injectCalls
      = s0.injectCalls + 1 ∧
    ((runAttempt cfg (loadSDK s0).1 sev evs).1.initCalls = s0.initCalls ∨
     (runAttempt cfg (loadSDK s0).1 sev evs).1.initCalls = s0.initCalls + 1) := by
  have hstep : loadSDK s0 =
      ({ s0 with isLoading := true, error := none,
                 loadPromise := some s0.nextPromiseId,
                 nextPromiseId := s0.nextPromiseId + 1 },
       .started s0.nextPromiseId) := by
    simp [loadSDK, hr, hp]
  refine ⟨by simp [hstep], ?_, ?_, ?_⟩
  · rw [hstep]
    exact iterateCalls_joined n _ s0.nextPromiseId (by simp [hr]) (by simp)
  · rw [hstep]
    exact runAttempt_injectCalls cfg _ sev evs
  · rw [hstep]
    exact runAttempt_initCalls cfg _ sev evs

/-- Witness for C3 at a concrete idle state, three extra callers, a
successful script load and an immediate ready signal. -/
theorem c3_witness :
    (loadSDK sIdle).2 = .started sIdle.nextPromiseId ∧
    iterateCalls (loadSDK sIdle).1 3
      = ((loadSDK sIdle).1, List.replicate 3 (.joined sIdle.nextPromiseId)) ∧
    (runAttempt cfgA (loadSDK sIdle).1 .onload
        [.asyncInitFires (some 7) false]).1.injectCalls
      = sIdle.injectCalls + 1 ∧
    ((runAttempt cfgA (loadSDK sIdle).1 .onload
        [.asyncInitFires (some 7) false]).1.initCalls = sIdle.initCalls ∨
     (runAttempt cfgA (loadSDK sIdle).1 .onload
        [.asyncInitFires (some 7) false]).1.initCalls = sIdle.initCalls + 1) :=
  c3_concurrent_loads_coalesce sIdle 3 cfgA .onload
    [.asyncInitFires (some 7) false] rfl rfl

/-- Claim C4: on every login-callback invocation the listener is removed
first, in every branch; then `authResponse = null` emits exactly
`cancel` with no step value, and an `authResponse` carrying neither an
authorization code nor an access token (JS-falsy both) emits exactly one
`error` with a descriptive message. -/
theorem c4_callback_unregisters_then_cancel_or_error (sd : SessionData)
    (st : LaunchState) (a : AuthResponse) (r : LoginResponse)
    (hc : strFalsy a.code = true) (ht : strFalsy a.accessToken = true) :
    (stepLaunch st (.callback r)).listenerOn = false ∧
    loginCallback sd { authResponse := none } = [.cancel none] ∧
    loginCallback sd { authResponse := some a }
      = [.error "[SignupLauncher] No auth code or token in FB.login() response."] := by
  refine ⟨by simp [stepLaunch], rfl, ?_⟩
  simp [loginCallback, hc, ht]

/-- Witness for C4 at a concrete launch state and an empty auth response. -/
theorem c4_witness :
    (stepLaunch launch0 (.callback { authResponse := none })).listenerOn
      = false ∧
    loginCallback emptySession { authResponse := none } = [.cancel none] ∧
    loginCallback emptySession { authResponse := some authEmpty }
      = [.error "[SignupLauncher] No auth code or token in FB.login() response."] :=
  c4_callback_unregisters_then_cancel_or_error emptySession launch0 authEmpty
    { authResponse := none } rfl rfl

/-- Claim C5: if the 10-second init timeout fires before the readiness hook,
the load attempt's promise settles as the timeout rejection (and never
resolves — the settlement stays that rejection), yet a later firing of the
installed `fbAsyncInit` hook still mutates the shared singleton state:
the handle is stored, `isReady` becomes true and the stored error is
cleared. -/
theorem c5_timeout_then_late_ready (cfg : FBConfig) (s : SDKState) (h : Nat)
    (hr : s.isReady = false) (ha : cfg.appId ≠ "") (hw : s.windowFB = none) :
    (runAttempt cfg s .onload
        [.timeoutFires, .asyncInitFires (some h) false]).2
      = some (.error .initTimeout) ∧
    (runAttempt cfg s .onload
        [.timeoutFires, .asyncInitFires (some h) false]).1.isReady = true ∧
    (runAttempt cfg s .onload
        [.timeoutFires, .asyncInitFires (some h) false]).1.fb = some h ∧
    (runAttempt cfg s .onload
        [.timeoutFires, .asyncInitFires (some h) false]).1.error = none := by
  by_cases htag : s.scriptTag = true <;>
    simp [runAttempt, _injectScript, _initSDK, stepInit, settleReject,
          failApply, _finalise, hr, ha, hw, htag]

/-- Witness for C5 at a concrete in-flight state. -/
theorem c5_witness :
    (runAttempt cfgA sInFlight .onload
        [.timeoutFires, .asyncInitFires (some 7) false]).2
      = some (.error .initTimeout) ∧
    (runAttempt cfgA sInFlight .onload
        [.timeoutFires, .asyncInitFires (some 7) false]).1.isReady = true ∧
    (runAttempt cfgA sInFlight .onload
        [.timeoutFires, .asyncInitFires (some 7) false]).1.fb = some 7 ∧
    (runAttempt cfgA sInFlight .onload
        [.timeoutFires, .asyncInitFires (some 7) false]).1.error = none :=
  c5_timeout_then_late_ready cfgA sInFlight 7 rfl (by decide) rfl

/-- Claim C6: from a settled-failed state (not ready, an error stored, the
promise reference discarded), a further `loadSDK()` call starts a fresh
attempt: it returns a newly started promise, the prior error is cleared and
`isLoading` set before the attempt runs, and the attempt reaches the
injection step again (`_injectScript` is invoked once more) — no permanent
lockout. -/
theorem c6_retry_after_failure (s : SDKState) (e : LoadErr) (cfg : FBConfig)
    (sev : ScriptEv) (evs : List InitEv)
    (hr : s.isReady = false) (_he : s.error = some e)
    (hp : s.loadPromise = none) :
    (loadSDK s).2 = .started s.nextPromiseId ∧
    (loadSDK s).1.error = none ∧
    (loadSDK s).1.isLoading = true ∧
    (runAttempt cfg (loadSDK s).1 sev evs).1.injectCalls
      = s.injectCalls + 1 := by
  have hstep : loadSDK s =
      ({ s with isLoading := true, error := none,
                loadPromise := some s.nextPromiseId,
                nextPromiseId := s.nextPromiseId + 1 },
       .started s.nextPromiseId) := by
    simp [loadSDK, hr, hp]
  refine ⟨by simp [hstep], by simp [hstep], by simp [hstep], ?_⟩
  rw [hstep]
  exact runAttempt_injectCalls cfg _ sev evs

/-- Witness for C6 at a concrete failed state. -/
theorem c6_witness :
    (loadSDK (failApply sInFlight .scriptLoadError)).2
      = .started (failApply sInFlight .scriptLoadError).nextPromiseId ∧
    (loadSDK (failApply sInFlight .scriptLoadError)).1.error = none ∧
    (loadSDK (failApply sInFlight .scriptLoadError)).1.isLoading = true ∧
    (runAttempt cfgA (loadSDK (failApply sInFlight .scriptLoadError)).1
        .onload [.asyncInitFires (some 7) false]).1.injectCalls
      = (failApply sInFlight .scriptLoadError).injectCalls + 1 :=
  c6_retry_after_failure (failApply sInFlight .scriptLoadError)
    .scriptLoadError cfgA .onload [.asyncInitFires (some 7) false]
    rfl rfl rfl

/-- Claim C7: launching while the SDK handle is absent or the loader is not
ready is a complete no-op — no event is emitted, the session buffer keeps
its previous value, the listener is never registered, and `FB.login` is
never invoked (and nothing is thrown: `launchSignup` is total). -/
theorem c7_launch_noop_when_not_ready (fb : Option Nat) (ready : Bool)
    (sd0 : SessionData) (steps : List LaunchStep)
    (h : fb = none ∨ ready = false) :
    launchSignup fb ready sd0 steps
      = { sd := sd0, listenerOn := false, loginCalled := false,
          events := [] } := by
  unfold launchSignup
  rw [if_pos h]

/-- Witness for C7: a launch with no SDK handle, against a full trace. -/
theorem c7_witness :
    launchSignup none true emptySession
        [.msg (.parsed finishPayload),
         .callback { authResponse := some authAbc }]
      = { sd := emptySession, listenerOn := false, loginCalled := false,
          events := [] } :=
  c7_launch_noop_when_not_ready none true emptySession
    [.msg (.parsed finishPayload), .callback { authResponse := some authAbc }]
    (Or.inl rfl)

/-- Claim C8: the listener, given any session buffer (it consults no
callback-fired state), emits `cancel` with the payload's `current_step` for
every sentinel-typed payload whose sub-event is `CANCEL` or `ERROR`, leaving
the buffer unchanged; payloads with a different `type` discriminator and
unparseable string payloads produce no event and leave the buffer unchanged.
In a launch, such a message arriving before the callback emits the `cancel`
at that point. -/
theorem c8_cancel_error_message_handling (sd : SessionData) (fbh : Nat)
    (p q : MsgPayload)
    (hty : p.type = "WA_EMBEDDED_SIGNUP")
    (hev : p.event = "CANCEL" ∨ p.event = "ERROR")
    (hq : q.type ≠ "WA_EMBEDDED_SIGNUP") :
    _onMessage sd (.parsed p) = (sd, [.cancel p.data_current_step]) ∧
    (launchSignup (some fbh) true sd [.msg (.parsed p)]).events
      = [.cancel p.data_current_step] ∧
    _onMessage sd (.parsed q) = (sd, []) ∧
    _onMessage sd .unparseable = (sd, []) := by
  have hfin : p.event ≠ "FINISH" := by
    rcases hev with h | h <;> simp [h]
  have hmsg : _onMessage sd (.parsed p) = (sd, [.cancel p.data_current_step]) := by
    simp [_onMessage, hty, hfin, hev]
  refine ⟨hmsg, ?_, by simp [_onMessage, hq], rfl⟩
  have hmsg0 : _onMessage emptySession (.parsed p)
      = (emptySession, [.cancel p.data_current_step]) := by
    simp [_onMessage, hty, hfin, hev]
  simp [launchSignup, stepLaunch, hmsg0]

/-- Witness for C8 at a concrete `CANCEL` payload and a mistyped payload. -/
theorem c8_witness :
    _onMessage emptySession (.parsed cancelPayload)
      = (emptySession, [.cancel (some "STEP2")]) ∧
    (launchSignup (some 1) true emptySession
        [.msg (.parsed cancelPayload)]).events = [.cancel (some "STEP2")] ∧
    _onMessage emptySession (.parsed mistypedPayload) = (emptySession, []) ∧
    _onMessage emptySession .unparseable = (emptySession, []) :=
  c8_cancel_error_message_handling emptySession 1 cancelPayload mistypedPayload
    rfl (Or.inl rfl) (by decide)

/-- Claim C9: calling `loadSDK()` when the loader is already ready resolves
immediately and returns the state completely unchanged — in particular no
script tag is inserted and the flags, error and handle keep their values. -/
theorem c9_ready_load_is_noop (s : SDKState) (h : s.isReady = true) :
    loadSDK s = (s, .immediate) := by
  simp [loadSDK, h]

/-- Witness for C9 at a concrete ready state. -/
theorem c9_witness :
    loadSDK (_finalise sIdleFB) = (_finalise sIdleFB, .immediate) :=
  c9_ready_load_is_noop (_finalise sIdleFB) rfl

/-- Claim C10: with an empty `appId` (no option and no environment value),
a load from an idle state with no script tag rejects with the
missing-App-ID error — but the script tag has already been inserted into
the document by the time of the rejection, because the guard sits in
`_initSDK`, which runs only after `_injectScript`.  The failure is therefore
not side-effect-free. -/
theorem c10_missing_appid_rejects_after_injection (cfg : FBConfig)
    (s : SDKState) (evs : List InitEv)
    (ha : cfg.appId = "") (hr : s.isReady = false) (ht : s.scriptTag = false)
    (hp : s.loadPromise = none) :
    (loadSDK s).2 = .started s.nextPromiseId ∧
    (runAttempt cfg (loadSDK s).1 .onload evs).2
      = some (.error .missingAppId) ∧
    (runAttempt cfg (loadSDK s).1 .onload evs).1.scriptTag = true ∧
    (runAttempt cfg (loadSDK s).1 .onload evs).1.error = some .missingAppId := by
  have hstep : loadSDK s =
      ({ s with isLoading := true, error := none,
                loadPromise := some s.nextPromiseId,
                nextPromiseId := s.nextPromiseId + 1 },
       .started s.nextPromiseId) := by
    simp [loadSDK, hr, hp]
  refine ⟨by simp [hstep], ?_, ?_, ?_⟩ <;>
    simp [hstep, runAttempt, _injectScript, _initSDK, failApply, ht, hr, ha]

/-- Witness for C10: empty App ID, idle state, script loads fine. -/
theorem c10_witness :
    (loadSDK sIdle).2 = .started sIdle.nextPromiseId ∧
    (runAttempt { cfgA with appId := "" } (loadSDK sIdle).1 .onload []).2
      = some (.error .missingAppId) ∧
    (runAttempt { cfgA with appId := "" }
        (loadSDK sIdle).1 .onload []).1.scriptTag = true ∧
    (runAttempt { cfgA with appId := "" }
        (loadSDK sIdle).1 .onload []).1.error = some .missingAppId :=
  c10_missing_appid_rejects_after_injection { cfgA with appId := "" } sIdle []
    rfl rfl rfl rfl
